import Mathlib

/-!
Verification of the authorization and token-lifecycle core of the
Quiz-Management backend: the JWT middleware (`AuthMiddleware` — token
extraction, verification, role gates, self-or-admin gate, in-memory rate
limit), the credential verifier (`AuthService.login`), the session trail
(`AuthService.updateLogoutTime`) and the profile-update controller
(`AuthController.updateProfile`). Each definition is a shallow embedding of
the corresponding JavaScript function; timestamps are naturals (milliseconds
since the epoch), with window arithmetic carried out in `Int` where the
JavaScript subtraction can go negative.
-/

namespace QuizAuth

/-- Stored user document (`User` model): identity fields plus the bcrypt
password hash, role and soft-deletion status. -/
structure StoredUser where
  id : String
  name : String
  email : String
  phone : String
  passwordHash : String
  role : String
  status : String
  deriving DecidableEq

/-- Identity claim-set embedded in a signed token: the payload
`{id, email, role, status}` built by `generateToken`. -/
structure Claims where
  id : String
  email : String
  role : String
  status : String
  deriving DecidableEq

/-- A presented bearer token as the jwt library sees it: structurally
malformed, or a well-formed payload carrying the secret it was signed with
and its expiry instant. -/
inductive Token where
  | malformed (raw : String) : Token
  | signed (payload : Claims) (signedWith : String) (expiresAt : Nat) : Token
  deriving DecidableEq

/-- Reason subtypes of a failed jwt verification. -/
inductive JwtError where
  | malformed : JwtError
  | signatureInvalid : JwtError
  | expired : JwtError
  deriving DecidableEq

/-- Modelled from the spec: the external `jwt.verify(token, secret)` call
used by `AuthMiddleware.verifyToken`, whose body is not in the repository.
Per §4.1 it fails closed with a reason subtype: `Malformed` for a
structurally malformed token, `SignatureInvalid` when the integrity tag was
not produced with the given secret (the tag is checked before the expiry
claim), `Expired` once `now` has reached `expires-at`; otherwise it returns
the embedded claim-set. -/
def jwtVerify (t : Token) (secret : String) (now : Nat) : Except JwtError Claims :=
  match t with
  | .malformed _ => .error .malformed
  | .signed payload signedWith expiresAt =>
      if signedWith = secret then
        if expiresAt ≤ now then .error .expired else .ok payload
      else .error .signatureInvalid

/-- `AuthMiddleware.generateToken` / `AuthService.generateToken`: sign the
payload `{id, email, role, status}` drawn from the user record, expiring
`ttl` after `now` (`expiresIn`). -/
def generateToken (user : StoredUser) (secret : String) (now ttl : Nat) : Token :=
  .signed ⟨user.id, user.email, user.role, user.status⟩ secret (now + ttl)

/-- `AuthMiddleware.verifyToken`: run `jwt.verify` inside try/catch and
return `null` (`none`) on every failure, whatever the reason was. -/
def verifyToken (t : Token) (secret : String) (now : Nat) : Option Claims :=
  (jwtVerify t secret now).toOption

/-- JavaScript `String.prototype.startsWith`, as a prefix test on the
character sequences. -/
def jsStartsWith (s pre : String) : Bool :=
  pre.data.isPrefixOf s.data

/-- `AuthMiddleware.extractToken`: the JS guard `if (!authHeader)` returns
`null` both when the request has no Authorization header and when the header
value is the empty string (both are falsy); otherwise strip a leading
`Bearer ` (JS `substring(7)`) or return the whole header value as the
token. -/
def extractToken (authHeader : Option String) : Option String :=
  match authHeader with
  | none => none
  | some h =>
      if h = "" then none
      else if jsStartsWith h "Bearer " then some (h.drop 7) else some h

/-- JSON rejection body sent by the middleware: `success`, `message`, and the
optional `requiredRoles` / `userRole` / `retryAfter` fields some rejections
add. -/
structure RespBody where
  success : Bool
  message : String
  requiredRoles : Option (List String)
  userRole : Option String
  retryAfter : Option Nat
  deriving DecidableEq

/-- Rejection body carrying only `success: false` and a message. -/
def mkMsg (m : String) : RespBody :=
  ⟨false, m, none, none, none⟩

/-- Outcome of the `authenticate` middleware: a short-circuit HTTP response,
or `next()` with `req.user` set to the decoded claim-set. -/
inductive AuthResult where
  | respond (status : Nat) (body : RespBody) : AuthResult
  | next (user : Claims) : AuthResult
  deriving DecidableEq

/-- `AuthMiddleware.authenticate`. `parse` stands for how the jwt library
reads the raw token string into the token value it verifies. The JS guard
`if (!token)` fires on both `null` and the empty string. -/
def authenticate (parse : String → Token) (secret : String) (now : Nat)
    (authHeader : Option String) : AuthResult :=
  match extractToken authHeader with
  | none => .respond 401 (mkMsg "Access denied. No token provided.")
  | some ts =>
      if ts = "" then .respond 401 (mkMsg "Access denied. No token provided.")
      else
        match verifyToken (parse ts) secret now with
        | none => .respond 401 (mkMsg "Invalid or expired token.")
        | some decoded =>
            if decoded.status = "deleted" then
              .respond 401 (mkMsg "Account has been deactivated.")
            else .next decoded

/-- `AuthMiddleware.optionalAuth`: always proceeds to `next()`; the result is
the value of `req.user` afterwards (`none` = request left unauthenticated).
`req.user` is set only when a truthy token verifies to a claim-set whose
status is not `deleted`. -/
def optionalAuth (parse : String → Token) (secret : String) (now : Nat)
    (authHeader : Option String) : Option Claims :=
  match extractToken authHeader with
  | none => none
  | some ts =>
      if ts = "" then none
      else
        match verifyToken (parse ts) secret now with
        | none => none
        | some decoded =>
            if decoded.status = "deleted" then none else some decoded

/-- Outcome of a middleware that adds no request data: a short-circuit HTTP
response, or `next()`. -/
inductive MwResult where
  | respond (status : Nat) (body : RespBody) : MwResult
  | next : MwResult
  deriving DecidableEq

/-- `AuthMiddleware.authorize(allowedRoles)` applied to `req.user`: 401
without a user, pass with an empty role list, pass when the role is listed,
else 403 carrying `requiredRoles` and `userRole`. -/
def authorize (allowedRoles : List String) (user : Option Claims) : MwResult :=
  match user with
  | none => .respond 401 (mkMsg "Authentication required.")
  | some u =>
      if allowedRoles.isEmpty then .next
      else if allowedRoles.contains u.role then .next
      else
        .respond 403
          ⟨false, "Access denied. Insufficient permissions.",
            some allowedRoles, some u.role, none⟩

/-- `AuthMiddleware.selfOrAdmin` applied to `req.user` and the target user id
taken from the route parameters: 401 without a user, pass for the `admin`
role, pass when the target id equals the caller id, else 403. -/
def selfOrAdmin (user : Option Claims) (targetUserId : String) : MwResult :=
  match user with
  | none => .respond 401 (mkMsg "Authentication required.")
  | some u =>
      if u.role = "admin" then .next
      else if targetUserId = u.id then .next
      else .respond 403 (mkMsg "Access denied. You can only access your own data.")

/-- `Math.ceil(windowMs / 1000)`: the retry-after value the rate limiter
sends on every denial. -/
def retryAfterHint (windowMs : Nat) : Nat :=
  (windowMs + 999) / 1000

/-- State and decision of one `rateLimit` call for one identifier: the entry
list stored back into the map, the denial flag (`true` = 429 response,
`false` = `next()`), and the `retryAfter` field of the rejection body. -/
structure ThrottleOutcome where
  entries : List Nat
  denied : Bool
  retryAfter : Option Nat
  deriving DecidableEq

/-- The clean-old-entries step of `rateLimit`: keep the timestamps with
`time > now - windowMs`, the subtraction taken in `Int` since it can go
negative in JS. -/
def pruneWindow (windowMs : Nat) (times : List Nat) (now : Nat) : List Nat :=
  times.filter fun time => decide ((now : Int) - (windowMs : Int) < (time : Int))

/-- `AuthMiddleware.rateLimit(maxRequests, windowMs)` body for one
identifier: clean old entries, deny (without appending) once the remaining
count reaches `maxRequests`, else append `now` and pass. -/
def rateLimitStep (maxRequests windowMs : Nat) (times : List Nat) (now : Nat) :
    ThrottleOutcome :=
  if (pruneWindow windowMs times now).length ≥ maxRequests then
    ⟨pruneWindow windowMs times now, true, some (retryAfterHint windowMs)⟩
  else
    ⟨pruneWindow windowMs times now ++ [now], false, none⟩

/-- Repeated `rateLimit` calls for one identifier, starting from an absent
map entry: final stored entries and the per-call denial flags. -/
def runThrottle (maxRequests windowMs : Nat) (calls : List Nat) :
    List Nat × List Bool :=
  calls.foldl
    (fun acc now =>
      ((rateLimitStep maxRequests windowMs acc.1 now).entries,
        acc.2 ++ [(rateLimitStep maxRequests windowMs acc.1 now).denied]))
    ([], [])

/-- Modelled from the claim C5 wording: prune exactly the entries with
`timestamp < now - window`, i.e. strictly older than the cutoff. -/
def pruneClaim (window : Nat) (times : List Nat) (now : Nat) : List Nat :=
  times.filter fun time => decide (¬((time : Int) < (now : Int) - (window : Int)))

/-- Modelled from the claim C5 wording: the Admit step as the claim states
it — prune the entries strictly older than `now - window`, deny without
appending once the remaining count reaches the ceiling, else append `now`
and allow. Kept separate from `rateLimitStep` so the two can be compared. -/
def admitClaimStep (ceiling window : Nat) (times : List Nat) (now : Nat) :
    ThrottleOutcome :=
  if (pruneClaim window times now).length ≥ ceiling then
    ⟨pruneClaim window times now, true, some (retryAfterHint window)⟩
  else
    ⟨pruneClaim window times now ++ [now], false, none⟩

/-- Modelled from the amended claim C5: prune the entries with
`timestamp ≤ now - window`, keeping only entries strictly inside the
trailing window. -/
def pruneAmended (window : Nat) (times : List Nat) (now : Nat) : List Nat :=
  times.filter fun time => decide (¬((time : Int) ≤ (now : Int) - (window : Int)))

/-- Modelled from the amended claim C5: the Admit step with the inclusive
pruning cutoff; the denial/append rule is unchanged. -/
def admitAmendedStep (ceiling window : Nat) (times : List Nat) (now : Nat) :
    ThrottleOutcome :=
  if (pruneAmended window times now).length ≥ ceiling then
    ⟨pruneAmended window times now, true, some (retryAfterHint window)⟩
  else
    ⟨pruneAmended window times now ++ [now], false, none⟩

/-- Try/catch wrapper of the `rateLimit` middleware body: a body that raised
an internal exception is caught and the request passes on to `next()`. -/
def rateLimitGuard (body : Except String MwResult) : MwResult :=
  match body with
  | .ok r => r
  | .error _ => .next

/-- Outcome of `AuthService.login`: `success: false` with a message, or
`success: true` with the user record (password scrubbed before it is sent)
and a freshly signed token. -/
inductive LoginOutcome where
  | rejected (message : String) : LoginOutcome
  | success (user : StoredUser) (token : Token) : LoginOutcome
  deriving DecidableEq

/-- `User.findOne({email})`: the first stored user with the given email. -/
def findUserByEmail (db : List StoredUser) (email : String) : Option StoredUser :=
  db.find? fun u => u.email == email

/-- `AuthService.login`. `compare` is the external `bcrypt.compare`
capability: whether a presented password matches a stored hash. Absent
account and wrong password share one message; a soft-deleted account is
reported distinctly before the password is ever compared. -/
def login (compare : String → String → Bool) (secret : String) (now ttl : Nat)
    (db : List StoredUser) (email password : String) : LoginOutcome :=
  match findUserByEmail db email with
  | none => .rejected "Invalid email or password"
  | some user =>
      if user.status = "deleted" then .rejected "Account has been deactivated"
      else if compare password user.passwordHash then
        .success user (generateToken user secret now ttl)
      else .rejected "Invalid email or password"

/-- Session/audit record (`Log` model): login identity, open instant, and
the logout instant once set. -/
structure LogRecord where
  id : String
  loginId : String
  email : String
  loggedInAt : Nat
  loggedOutAt : Option Nat
  deriving DecidableEq

/-- Service result `{success, message}`. -/
structure SvcResult where
  success : Bool
  message : String
  deriving DecidableEq

/-- `Log.findByIdAndUpdate(logId, {loggedOutAt: now})`: set `loggedOutAt` on
the records whose id matches (at most one, ids being unique); a missing id
updates nothing and raises nothing. -/
def findByIdAndUpdateLogout (db : List LogRecord) (logId : String) (now : Nat) :
    List LogRecord :=
  db.map fun r => if r.id = logId then { r with loggedOutAt := some now } else r

/-- `AuthService.updateLogoutTime`: fire the update and report success
without inspecting whether any record matched. -/
def updateLogoutTime (db : List LogRecord) (logId : String) (now : Nat) :
    List LogRecord × SvcResult :=
  (findByIdAndUpdateLogout db logId now, ⟨true, "Logout time updated"⟩)

/-- Plain field-to-value assignments an update document can carry: one
optional entry per schema path the update route can touch. -/
structure FieldSet where
  name : Option String
  email : Option String
  phone : Option String
  password : Option String
  role : Option String
  status : Option String
  deriving DecidableEq

/-- Field-set with no entry present. -/
def emptyFieldSet : FieldSet :=
  ⟨none, none, none, none, none, none⟩

/-- Profile-update request body as `express.json` delivers it: the top-level
plain fields plus an optional mongoose update-operator sub-document (a
top-level dollar-set key), whose contents sit below the top level. -/
structure UpdateBody where
  fields : FieldSet
  setOp : Option FieldSet
  deriving DecidableEq

/-- `AuthController.updateProfile` body sanitization: `delete
updateData.password; delete updateData.role; delete updateData.status` —
these remove only the three top-level plain keys; a top-level dollar-set
operator key is a different key and survives them. -/
def sanitizeProfileUpdate (b : UpdateBody) : UpdateBody :=
  { b with
    fields := { b.fields with password := none, role := none, status := none } }

/-- Application of one field-set to a stored user: set the present fields,
keep the rest. -/
def applyFieldSet (u : StoredUser) (f : FieldSet) : StoredUser :=
  { u with
    name := f.name.getD u.name,
    email := f.email.getD u.email,
    phone := f.phone.getD u.phone,
    passwordHash := f.password.getD u.passwordHash,
    role := f.role.getD u.role,
    status := f.status.getD u.status }

/-- Effect of `UserService.updateUser` on the stored user: hash the password
when the top-level field carries a truthy one, then `findByIdAndUpdate`
applies the plain fields (mongoose casts them into an implicit set
operation) and, when an explicit dollar-set sub-document is present, its
fields as well — mongoose honors the operator, and role/status are ordinary
schema paths whose enum validators accept the listed values. -/
def updateUserApply (hash : String → String) (u : StoredUser) (b : UpdateBody) :
    StoredUser :=
  applyFieldSet
    (applyFieldSet u
      { b.fields with
        password :=
          match b.fields.password with
          | some p => if p = "" then some p else some (hash p)
          | none => none })
    (b.setOp.getD emptyFieldSet)

/-- Concrete store entry: a soft-deleted account. -/
def deletedStoredUser : StoredUser :=
  ⟨"u9", "Gone", "gone@x.y", "0000000000", "h9", "admin", "deleted"⟩

/-- Concrete store entry: an active (non-deleted) account. -/
def activeStoredUser : StoredUser :=
  ⟨"u1", "Act", "act@x.y", "1111111111", "h1", "user", "verified"⟩

/-- Concrete open session record. -/
def sampleLog : LogRecord :=
  ⟨"L1", "u1", "act@x.y", 10, none⟩

/-- C1: a request whose bearer token decodes to a claim-set with status
"deleted" is rejected at the gate before any handler runs: `authenticate`
responds 401 with "Account has been deactivated." (it never reaches `next`),
and `optionalAuth` leaves the request unauthenticated — for every role in the
claim-set and for every token whose verification succeeds, i.e. whose
signature is valid and unexpired. -/
theorem deleted_status_rejected_at_gate
    (parse : String → Token) (secret : String) (now : Nat)
    (authHeader : Option String) (ts : String) (c : Claims)
    (hex : extractToken authHeader = some ts) (hne : ts ≠ "")
    (hdec : verifyToken (parse ts) secret now = some c)
    (hdel : c.status = "deleted") :
    authenticate parse secret now authHeader =
      AuthResult.respond 401 (mkMsg "Account has been deactivated.") ∧
    optionalAuth parse secret now authHeader = none := by
  unfold authenticate optionalAuth
  rw [hex]
  simp [hne, hdec, hdel]

/-- Witness for C1: a concrete unexpired, correctly signed token whose
claim-set has role admin and status deleted. -/
theorem deleted_status_rejected_at_gate_witness :
    authenticate
        (fun _ => Token.signed ⟨"u1", "a@b.c", "admin", "deleted"⟩ "sec" 100)
        "sec" 50 (some "Bearer t") =
      AuthResult.respond 401 (mkMsg "Account has been deactivated.") ∧
    optionalAuth
        (fun _ => Token.signed ⟨"u1", "a@b.c", "admin", "deleted"⟩ "sec" 100)
        "sec" 50 (some "Bearer t") = none :=
  deleted_status_rejected_at_gate
    (fun _ => Token.signed ⟨"u1", "a@b.c", "admin", "deleted"⟩ "sec" 100)
    "sec" 50 (some "Bearer t") "t" ⟨"u1", "a@b.c", "admin", "deleted"⟩
    (by decide) (by decide) (by decide) rfl

/-- C2: for every authenticated claim-set and target id, `selfOrAdmin` (the
code's self-or-role-floor check, whose floor is the admin role) allows
exactly when the subject id equals the target id or the admin role-floor
check `authorize ["admin"]` would allow — so every subject may act on its own
record whatever its role — and every other authenticated case is denied with
403 Forbidden. -/
theorem selfOrAdmin_self_or_floor (u : Claims) (target : String) :
    selfOrAdmin (some u) target =
      (if u.id = target ∨ authorize ["admin"] (some u) = MwResult.next then
        MwResult.next
      else
        MwResult.respond 403
          (mkMsg "Access denied. You can only access your own data.")) := by
  by_cases hrole : u.role = "admin"
  · by_cases hid : u.id = target
    · simp [selfOrAdmin, authorize, hrole, hid]
    · simp [selfOrAdmin, authorize, hrole, hid]
  · by_cases hid : u.id = target
    · simp [selfOrAdmin, authorize, hrole, hid]
    · simp [selfOrAdmin, authorize, hrole, hid, Ne.symm hid]

/-- Counterexample to C3: a soft-deleted account's identifier with a wrong
secret is rejected with "Account has been deactivated", which differs from
the rejection for an identifier with no stored account — the two runs are
distinguishable, so account existence is observable for deleted accounts. -/
theorem login_enumerable_on_deleted_account :
    login (fun _ _ => false) "sec" 0 24 [deletedStoredUser] "gone@x.y" "pw" =
      LoginOutcome.rejected "Account has been deactivated" ∧
    login (fun _ _ => false) "sec" 0 24 [deletedStoredUser] "nobody@x.y" "pw" =
      LoginOutcome.rejected "Invalid email or password" ∧
    login (fun _ _ => false) "sec" 0 24 [deletedStoredUser] "gone@x.y" "pw" ≠
      login (fun _ _ => false) "sec" 0 24 [deletedStoredUser] "nobody@x.y" "pw" := by
  refine ⟨by decide, by decide, by decide⟩

/-- C3 (amended): restricted to accounts whose status is not "deleted", the
two runs are identical — an absent identifier and an existing identifier with
a wrong secret both yield the rejection "Invalid email or password", whatever
the secret. -/
theorem login_nonenumerable_for_active_accounts
    (compare : String → String → Bool) (secret : String) (now ttl : Nat)
    (db : List StoredUser) (emailAbsent emailPresent password : String)
    (user : StoredUser)
    (habs : findUserByEmail db emailAbsent = none)
    (hpres : findUserByEmail db emailPresent = some user)
    (hstatus : user.status ≠ "deleted")
    (hwrong : compare password user.passwordHash = false) :
    login compare secret now ttl db emailAbsent password =
      LoginOutcome.rejected "Invalid email or password" ∧
    login compare secret now ttl db emailPresent password =
      LoginOutcome.rejected "Invalid email or password" := by
  unfold login
  rw [habs, hpres]
  simp [hstatus, hwrong]

/-- Witness for C3 (amended): one active stored account, a wrong password,
and a nonexistent identifier. -/
theorem login_nonenumerable_for_active_accounts_witness :
    login (fun _ _ => false) "sec" 0 24 [activeStoredUser] "none@x.y" "pw" =
      LoginOutcome.rejected "Invalid email or password" ∧
    login (fun _ _ => false) "sec" 0 24 [activeStoredUser] "act@x.y" "pw" =
      LoginOutcome.rejected "Invalid email or password" :=
  login_nonenumerable_for_active_accounts (fun _ _ => false) "sec" 0 24
    [activeStoredUser] "none@x.y" "act@x.y" "pw" activeStoredUser
    (by decide) (by decide) (by decide) rfl

/-- Counterexample to C4: a denied call whose oldest surviving entry is 0 at
`now = 3000` with a 60000 ms window. The code's hint is the constant 60
seconds (the whole window), while `window - (now - oldest-remaining-entry)`
is 57000 ms, i.e. 57 seconds — the hint equals neither reading of the
claimed formula. -/
theorem rateLimit_retryAfter_not_remaining_time :
    (rateLimitStep 3 60000 [0, 1000, 2000] 3000).denied = true ∧
    (rateLimitStep 3 60000 [0, 1000, 2000] 3000).entries.head? = some 0 ∧
    (rateLimitStep 3 60000 [0, 1000, 2000] 3000).retryAfter = some 60 ∧
    60000 - (3000 - 0) = 57000 ∧
    (60 : Nat) ≠ 57000 / 1000 ∧ (60 : Nat) * 1000 ≠ 57000 := by
  refine ⟨by decide, by decide, by decide, by decide, by decide, by decide⟩

/-- C4 (amended): every denied `rateLimit` call carries a retry-after hint,
and its value is the constant `⌈windowMs / 1000⌉` — the full window in
seconds — independent of the surviving timestamps. -/
theorem rateLimit_retryAfter_is_full_window
    (maxRequests windowMs : Nat) (times : List Nat) (now : Nat)
    (hden : (rateLimitStep maxRequests windowMs times now).denied = true) :
    (rateLimitStep maxRequests windowMs times now).retryAfter =
      some (retryAfterHint windowMs) := by
  by_cases h : (pruneWindow windowMs times now).length ≥ maxRequests
  · unfold rateLimitStep
    rw [if_pos h]
  · unfold rateLimitStep at hden
    rw [if_neg h] at hden
    simp at hden

/-- Witness for C4 (amended): a concrete denied call. -/
theorem rateLimit_retryAfter_is_full_window_witness :
    (rateLimitStep 1 60000 [0] 5).retryAfter = some (retryAfterHint 60000) :=
  rateLimit_retryAfter_is_full_window 1 60000 [0] 5 (by decide)

/-- Counterexample to C5: with ceiling 1 and window 60, a stored entry at
timestamp 0 checked at `now = 60` sits exactly at `now - window`. The
claim's algorithm prunes only entries strictly older than that cutoff, so it
keeps the entry and denies the call; the code's filter keeps only entries
strictly newer than the cutoff, so it drops the entry and admits the call. -/
theorem rateLimit_prune_boundary_differs :
    (admitClaimStep 1 60 [0] 60).entries = [0] ∧
    (admitClaimStep 1 60 [0] 60).denied = true ∧
    (rateLimitStep 1 60 [0] 60).entries = [60] ∧
    (rateLimitStep 1 60 [0] 60).denied = false := by
  refine ⟨by decide, by decide, by decide, by decide⟩

/-- C5 (amended): the code's per-key step is exactly the claim's algorithm
with the pruning cutoff made inclusive — drop the entries with
`timestamp ≤ now - window` — and the claimed boundary scenario holds: with
ceiling 3 and window 60, calls at t = 0, 1, 2 are admitted, a 4th at t = 3 is
denied without being appended, and a 5th at t = 61 is admitted. -/
theorem rateLimit_step_algorithm :
    (∀ (maxRequests windowMs : Nat) (times : List Nat) (now : Nat),
      rateLimitStep maxRequests windowMs times now =
        admitAmendedStep maxRequests windowMs times now) ∧
    (runThrottle 3 60 [0, 1, 2, 3, 61]).2 = [false, false, false, true, false] ∧
    (runThrottle 3 60 [0, 1, 2, 3]).1 = [0, 1, 2] := by
  refine ⟨?_, by decide, by decide⟩
  intro maxRequests windowMs times now
  have hprune : pruneWindow windowMs times now = pruneAmended windowMs times now := by
    unfold pruneWindow pruneAmended
    congr 1
    funext time
    exact decide_eq_decide.mpr not_le.symm
  unfold rateLimitStep admitAmendedStep
  rw [hprune]

/-- Counterexample to C6: an expired token with a valid signature and a
wrong-secret token fail the underlying verification for different reasons
(`expired` vs `signatureInvalid`), yet `verifyToken` returns the same `none`
for both — its rejections carry no reason subtype at all. -/
theorem verifyToken_collapses_reasons :
    jwtVerify (Token.signed ⟨"u1", "a@b.c", "user", "verified"⟩ "sec" 10) "sec" 20 =
      Except.error JwtError.expired ∧
    jwtVerify (Token.signed ⟨"u1", "a@b.c", "user", "verified"⟩ "bad" 100) "sec" 20 =
      Except.error JwtError.signatureInvalid ∧
    verifyToken (Token.signed ⟨"u1", "a@b.c", "user", "verified"⟩ "sec" 10) "sec" 20 =
      none ∧
    verifyToken (Token.signed ⟨"u1", "a@b.c", "user", "verified"⟩ "sec" 10) "sec" 20 =
      verifyToken (Token.signed ⟨"u1", "a@b.c", "user", "verified"⟩ "bad" 100) "sec" 20 := by
  refine ⟨rfl, rfl, by decide, by decide⟩

/-- C6 (amended): `verifyToken` rejects every expired token and every
wrong-secret token but returns `null` in both cases, discarding the reason
the underlying verification raises: with the correct secret, a token whose
expiry has passed fails as `expired`; with a wrong secret the failure is
`signatureInvalid` (the signature is checked before expiry) and the token is
never accepted. -/
theorem verifyToken_rejects_expired_and_bad_signature
    (payload : Claims) (signedWith secret : String) (expiresAt now : Nat) :
    (signedWith = secret → expiresAt ≤ now →
      jwtVerify (Token.signed payload signedWith expiresAt) secret now =
        Except.error JwtError.expired ∧
      verifyToken (Token.signed payload signedWith expiresAt) secret now = none) ∧
    (signedWith ≠ secret →
      jwtVerify (Token.signed payload signedWith expiresAt) secret now =
        Except.error JwtError.signatureInvalid ∧
      verifyToken (Token.signed payload signedWith expiresAt) secret now = none) := by
  constructor
  · intro hs hexp
    constructor <;> simp [jwtVerify, verifyToken, Except.toOption, hs, hexp]
  · intro hs
    constructor <;> simp [jwtVerify, verifyToken, Except.toOption, hs]

/-- Witness for C6 (amended): a token expired at its own issue instant (ttl
0) with the right secret, and a token signed with a wrong secret. -/
theorem verifyToken_rejects_expired_and_bad_signature_witness :
    (jwtVerify (Token.signed ⟨"u2", "c@d.e", "user", "pending"⟩ "k" 7) "k" 7 =
        Except.error JwtError.expired ∧
      verifyToken (Token.signed ⟨"u2", "c@d.e", "user", "pending"⟩ "k" 7) "k" 7 =
        none) ∧
    (jwtVerify (Token.signed ⟨"u2", "c@d.e", "user", "pending"⟩ "bad" 100) "k" 0 =
        Except.error JwtError.signatureInvalid ∧
      verifyToken (Token.signed ⟨"u2", "c@d.e", "user", "pending"⟩ "bad" 100) "k" 0 =
        none) :=
  ⟨(verifyToken_rejects_expired_and_bad_signature
      ⟨"u2", "c@d.e", "user", "pending"⟩ "k" "k" 7 7).1 rfl (by decide),
   (verifyToken_rejects_expired_and_bad_signature
      ⟨"u2", "c@d.e", "user", "pending"⟩ "bad" "k" 100 0).2 (by decide)⟩

/-- Counterexample to C7: on an empty log store no record with the given id
exists, yet `updateLogoutTime` reports ok (`success: true`) — it does not
return NotFound. -/
theorem updateLogoutTime_ok_on_missing_record :
    (([] : List LogRecord).find? (fun r => r.id == "missing")) = none ∧
    (updateLogoutTime [] "missing" 5).2 = ⟨true, "Logout time updated"⟩ ∧
    (updateLogoutTime [] "missing" 5).2.success = true ∧
    (updateLogoutTime [] "missing" 5).1 = [] := by
  refine ⟨by decide, by decide, by decide, by decide⟩

/-- C7 (amended): `updateLogoutTime` sets `loggedOutAt := now` on each record
whose id matches (exactly one when the id exists, ids being unique), leaves
every other record unchanged, and always reports ok — in particular for a
record-id with no record the store is unchanged and the result is still ok,
never NotFound. -/
theorem updateLogoutTime_sets_loggedOutAt
    (db : List LogRecord) (logId : String) (now : Nat) :
    ((updateLogoutTime db logId now).2 = ⟨true, "Logout time updated"⟩) ∧
    ((∀ r ∈ db, r.id ≠ logId) → (updateLogoutTime db logId now).1 = db) ∧
    (∀ r ∈ db, r.id = logId →
      { r with loggedOutAt := some now } ∈ (updateLogoutTime db logId now).1) ∧
    (∀ r ∈ db, r.id ≠ logId → r ∈ (updateLogoutTime db logId now).1) := by
  refine ⟨rfl, ?_, ?_, ?_⟩
  · intro h
    show db.map _ = db
    rw [List.map_congr_left (fun r hr => if_neg (h r hr))]
    simp
  · intro r hr hid
    have hmem := List.mem_map_of_mem
      (fun r => if r.id = logId then { r with loggedOutAt := some now } else r) hr
    simp only [if_pos hid] at hmem
    exact hmem
  · intro r hr hid
    have hmem := List.mem_map_of_mem
      (fun r => if r.id = logId then { r with loggedOutAt := some now } else r) hr
    simp only [if_neg hid] at hmem
    exact hmem

/-- Witness for C7 (amended): closing an existing record. -/
theorem updateLogoutTime_sets_loggedOutAt_witness :
    (updateLogoutTime [sampleLog] "L1" 42).2 = ⟨true, "Logout time updated"⟩ ∧
    { sampleLog with loggedOutAt := some 42 } ∈ (updateLogoutTime [sampleLog] "L1" 42).1 :=
  ⟨(updateLogoutTime_sets_loggedOutAt [sampleLog] "L1" 42).1,
   (updateLogoutTime_sets_loggedOutAt [sampleLog] "L1" 42).2.2.1 sampleLog
     (by decide) rfl⟩

/-- C8: the request throttle fails open — whatever internal exception the
`rateLimit` body raises, the catch branch calls `next()`, so an internal
throttle fault can never reject a request; a normal body outcome passes
through unchanged. -/
theorem rateLimit_fails_open (e : String) (r : MwResult) :
    rateLimitGuard (Except.error e) = MwResult.next ∧
    rateLimitGuard (Except.ok r) = r :=
  ⟨rfl, rfl⟩

/-- Concrete request body whose only content is a dollar-set operator
sub-document assigning role admin. -/
def setRoleAdminBody : UpdateBody :=
  ⟨emptyFieldSet, some { emptyFieldSet with role := some "admin" }⟩

/-- Counterexample to C9: a body whose only key is the dollar-set operator
assigning role admin passes the controller's three top-level deletes
untouched, and `findByIdAndUpdate` honors the operator, so the stored role
of the calling user changes from "user" to "admin" — the frame property
fails for operator-key bodies. -/
theorem updateProfile_role_changed_by_set_operator :
    sanitizeProfileUpdate setRoleAdminBody = setRoleAdminBody ∧
    activeStoredUser.role = "user" ∧
    (updateUserApply (fun p => p) activeStoredUser
        (sanitizeProfileUpdate setRoleAdminBody)).role = "admin" ∧
    (updateUserApply (fun p => p) activeStoredUser
        (sanitizeProfileUpdate setRoleAdminBody)).role ≠ activeStoredUser.role := by
  refine ⟨by decide, by decide, by decide, by decide⟩

/-- C9 (amended): `updateProfile` deletes the top-level password, role and
status fields from the request body before applying the update, so for
every request body with no mongoose update-operator key (no dollar-set
sub-document) the stored role, status and password hash of the calling user
are unchanged; a body carrying such an operator key bypasses the deletes
and can change them. -/
theorem updateProfile_preserves_role_status
    (hash : String → String) (u : StoredUser) (body : UpdateBody)
    (hop : body.setOp = none) :
    (sanitizeProfileUpdate body).fields.password = none ∧
    (sanitizeProfileUpdate body).fields.role = none ∧
    (sanitizeProfileUpdate body).fields.status = none ∧
    (updateUserApply hash u (sanitizeProfileUpdate body)).role = u.role ∧
    (updateUserApply hash u (sanitizeProfileUpdate body)).status = u.status ∧
    (updateUserApply hash u (sanitizeProfileUpdate body)).passwordHash =
      u.passwordHash := by
  refine ⟨rfl, rfl, rfl, ?_, ?_, ?_⟩ <;>
    simp [updateUserApply, sanitizeProfileUpdate, applyFieldSet, emptyFieldSet, hop]

/-- Witness for C9 (amended): an operator-free body carrying every top-level
field, including role admin and status deleted, leaves the stored role,
status and password hash of an active user unchanged. -/
theorem updateProfile_preserves_role_status_witness :
    (updateUserApply (fun p => p) activeStoredUser
        (sanitizeProfileUpdate
          ⟨⟨some "N", some "n@x.y", some "2222222222", some "npw",
            some "admin", some "deleted"⟩, none⟩)).role = activeStoredUser.role ∧
    (updateUserApply (fun p => p) activeStoredUser
        (sanitizeProfileUpdate
          ⟨⟨some "N", some "n@x.y", some "2222222222", some "npw",
            some "admin", some "deleted"⟩, none⟩)).status = activeStoredUser.status ∧
    (updateUserApply (fun p => p) activeStoredUser
        (sanitizeProfileUpdate
          ⟨⟨some "N", some "n@x.y", some "2222222222", some "npw",
            some "admin", some "deleted"⟩, none⟩)).passwordHash =
      activeStoredUser.passwordHash :=
  ⟨(updateProfile_preserves_role_status (fun p => p) activeStoredUser
      ⟨⟨some "N", some "n@x.y", some "2222222222", some "npw",
        some "admin", some "deleted"⟩, none⟩ rfl).2.2.2.1,
   (updateProfile_preserves_role_status (fun p => p) activeStoredUser
      ⟨⟨some "N", some "n@x.y", some "2222222222", some "npw",
        some "admin", some "deleted"⟩, none⟩ rfl).2.2.2.2.1,
   (updateProfile_preserves_role_status (fun p => p) activeStoredUser
      ⟨⟨some "N", some "n@x.y", some "2222222222", some "npw",
        some "admin", some "deleted"⟩, none⟩ rfl).2.2.2.2.2⟩

/-- Counterexample to C10: the empty string is a realizable Authorization
header value and does not start with "Bearer ", yet the JS guard
`if (!authHeader)` fires on it (the empty string is falsy), so
`extractToken` returns `null` rather than the header value itself — the
whole-header pass-through fails at the empty header. -/
theorem extractToken_empty_header_not_returned :
    jsStartsWith "" "Bearer " = false ∧
    extractToken (some "") = none ∧
    extractToken (some "") ≠ some "" := by
  refine ⟨by decide, by decide, by decide⟩

/-- C10 (amended): every nonempty Authorization header value that does not
start with "Bearer " is returned whole as the token, while the
present-but-empty header value is falsy in JS and treated like an absent
header (`null`); the header exactly "Bearer " yields the empty token, which
`authenticate` treats as absent credentials — 401 "Access denied. No token
provided." — not as a malformed token, for every parser, secret and
clock. -/
theorem extractToken_edge_behavior :
    (∀ h : String, h ≠ "" → jsStartsWith h "Bearer " = false →
      extractToken (some h) = some h) ∧
    (extractToken (some "") = none) ∧
    (extractToken (some "Bearer ") = some "") ∧
    (∀ (parse : String → Token) (secret : String) (now : Nat),
      authenticate parse secret now (some "Bearer ") =
        AuthResult.respond 401 (mkMsg "Access denied. No token provided.")) := by
  refine ⟨?_, by decide, by decide, ?_⟩
  · intro h hne hb
    simp [extractToken, hne, hb]
  · intro parse secret now
    have hext : extractToken (some "Bearer ") = some "" := by decide
    unfold authenticate
    rw [hext]
    simp

/-- Witness for C10 (amended): a bare nonempty token header and the header
exactly "Bearer ". -/
theorem extractToken_edge_behavior_witness :
    extractToken (some "tok123") = some "tok123" ∧
    authenticate Token.malformed "sec" 0 (some "Bearer ") =
      AuthResult.respond 401 (mkMsg "Access denied. No token provided.") :=
  ⟨extractToken_edge_behavior.1 "tok123" (by decide) (by decide),
   extractToken_edge_behavior.2.2.2 Token.malformed "sec" 0⟩

end QuizAuth
